import Mathlib

/-!
Shallow embedding of the CV-Analyzer application pipeline (src/backend/main.py)
and proofs about its decision, parsing, notification and orchestration logic.

Modelling conventions:
* Python strings are `String`/`List Char`; the regex character classes and the
  case-insensitive flag are modelled on their ASCII fragment (`\s`, `\d`, `\w`,
  `re.IGNORECASE`), which is the fragment exercised by the patterns in the code.
* The three external effects (PDF parsing, the language-model call, the SMTP
  transaction) are passed in as explicit outcome parameters: `Except.error e`
  models a Python exception carrying message `e` that the corresponding library
  call raises, `Except.ok v` / `Option` model a normal return.
* A Python dict literal is modelled as an association list in insertion order.
-/

namespace CVAnalyzer

/-- ASCII whitespace, the characters matched by the regex class backslash-s. -/
def isSpaceChar (c : Char) : Bool :=
  c = ' ' || c = '\t' || c = '\n' || c = '\r' || c = '\x0b' || c = '\x0c'

/-- ASCII word characters, the regex class backslash-w (used by word boundaries). -/
def isWordChar (c : Char) : Bool :=
  c.isAlphanum || c = '_'

/-- Swap the case of an ASCII letter, identity elsewhere. -/
def flipCase (c : Char) : Char :=
  if 'a' ≤ c && c ≤ 'z' then Char.ofNat (c.toNat - 32)
  else if 'A' ≤ c && c ≤ 'Z' then Char.ofNat (c.toNat + 32)
  else c

/-- Python str.upper on the ASCII fragment, applied characterwise. -/
def pyUpper (c : Char) : Char :=
  if 'a' ≤ c && c ≤ 'z' then Char.ofNat (c.toNat - 32) else c

/-- Python str.upper on a character list. -/
def pyUpperList (l : List Char) : List Char := l.map pyUpper

/-- Case-insensitive character match against pattern character `p`
(re.IGNORECASE on ASCII: the character itself or its case-swapped form). -/
def ciChar (p c : Char) : Bool := c = p || c = flipCase p

/-- Character match in case-sensitive (`ci = false`) or insensitive mode. -/
def charMatches (ci : Bool) (p c : Char) : Bool :=
  if ci then ciChar p c else p = c

/-- Match a literal pattern `w` at the start of `s`; on success return the
matched text (the actual characters of `s`, which matter under IGNORECASE)
and the remainder of `s`. -/
def matchLit (ci : Bool) : List Char → List Char → Option (List Char × List Char)
  | [], s => some ([], s)
  | _ :: _, [] => none
  | p :: ps, c :: cs =>
    if charMatches ci p c then
      match matchLit ci ps cs with
      | some pr => some (c :: pr.1, pr.2)
      | none => none
    else none

/-- Numeric value of an ASCII digit run, as computed by Python int(). -/
def natOfDigits (l : List Char) : Nat :=
  l.foldl (fun a c => a * 10 + (c.toNat - 48)) 0

/-- The capture group (backslash-d +), optionally required to be followed by a
literal percent sign.  The digit run is maximal: shortening it would put a
digit where the percent sign must be, so Python backtracking adds nothing. -/
def capDigits (needPct : Bool) (s : List Char) : Option Nat :=
  let run := s.takeWhile Char.isDigit
  let rest := s.dropWhile Char.isDigit
  if run.isEmpty then none
  else if needPct then
    match rest with
    | '%' :: _ => some (natOfDigits run)
    | _ => none
  else some (natOfDigits run)

/-- The lazy gap ".*?" of the fallback patterns: try the continuation at the
current position, then advance one (non-newline) character at a time; a
newline stops the scan because "." does not match newlines. -/
def scanDotStar {α : Type} (cap : List Char → Option α) : List Char → Option α
  | [] => cap []
  | c :: rest =>
    match cap (c :: rest) with
    | some r => some r
    | none => if c = '\n' then none else scanDotStar cap rest

/-- re.search: try the position matcher at each position of the text, leftmost
first. -/
def searchFrom {α : Type} (att : List Char → Option α) : List Char → Option α
  | [] => att []
  | c :: rest =>
    match att (c :: rest) with
    | some r => some r
    | none => searchFrom att rest

/-- The gap ":?" followed by "backslash-s *".  Greedy and deterministic here:
no capture group of the program starts with a colon or whitespace, so Python
backtracking over these two quantifiers can never succeed where this fails. -/
def skipColonWs (s : List Char) : List Char :=
  (match s with
   | ':' :: r => r
   | _ => s).dropWhile isSpaceChar

/-- One percentage pattern anchored at a position: the literal label, then
either the lazy gap (for the patterns written with ".*?") or the colon gap,
then the digit capture. -/
def tryNumAt (label : List Char) (ci dotSep needPct : Bool) (s : List Char) : Option Nat :=
  match matchLit ci label s with
  | none => none
  | some pr =>
    if dotSep then scanDotStar (capDigits needPct) pr.2
    else capDigits needPct (skipColonWs pr.2)

/-- re.search of one percentage pattern over the whole text. -/
def searchNum (label : String) (ci dotSep needPct : Bool) (text : List Char) : Option Nat :=
  searchFrom (tryNumAt label.data ci dotSep needPct) text

/-- Lines 86-105 of main.py: the primary pattern "Match Percentage:? s*(d+)"
searched case-sensitively, then the three fallback patterns (with percent
sign, with an arbitrary same-line gap, lowercase "match" with percent sign)
searched with re.IGNORECASE, in their listed order; 0 if nothing matches. -/
def parse_percentage (response_text : List Char) : Nat :=
  match searchNum "Match Percentage" false false false response_text with
  | some n => n
  | none =>
    match searchNum "Match Percentage" true false true response_text with
    | some n => n
    | none =>
      match searchNum "Match Percentage" true true false response_text with
      | some n => n
      | none =>
        match searchNum "match" true true true response_text with
        | some n => n
        | none => 0

/-- The capture group "(ACCEPT|REJECT)" (or its title-case twin): first
alternative first, returning the actual matched text. -/
def capWords (w1 w2 : List Char) (s : List Char) : Option (List Char) :=
  match matchLit true w1 s with
  | some pr => some pr.1
  | none =>
    match matchLit true w2 s with
    | some pr => some pr.1
    | none => none

/-- One recommendation pattern anchored at a position: the literal label
"Recommendation", then the colon gap or the lazy gap, then the word capture.
All four patterns are searched with re.IGNORECASE. -/
def tryRecAt (dotSep : Bool) (w1 w2 : List Char) (s : List Char) : Option (List Char) :=
  match matchLit true ("Recommendation".data) s with
  | none => none
  | some pr =>
    if dotSep then scanDotStar (capWords w1 w2) pr.2
    else capWords w1 w2 (skipColonWs pr.2)

/-- re.search of one recommendation pattern over the whole text. -/
def recSearchOne (dotSep : Bool) (w1 w2 : String) (text : List Char) : Option (List Char) :=
  searchFrom (tryRecAt dotSep w1.data w2.data) text

/-- Lines 108-121 of main.py: the four recommendation patterns in their listed
order (colon gap with upper-case words, colon gap with title-case words, lazy
gap with upper-case words, lazy gap with title-case words), each a full
re.search, first success wins. -/
def searchRecommendation (text : List Char) : Option (List Char) :=
  match recSearchOne false "ACCEPT" "REJECT" text with
  | some m => some m
  | none =>
    match recSearchOne false "Accept" "Reject" text with
    | some m => some m
    | none =>
      match recSearchOne true "ACCEPT" "REJECT" text with
      | some m => some m
      | none => recSearchOne true "Accept" "Reject" text

/-- Word-boundary test for the character preceding a candidate match. -/
def boundaryBefore : Option Char → Bool
  | none => true
  | some c => !(isWordChar c)

/-- Does "accept" (IGNORECASE) start here, ending at a word boundary? -/
def acceptHere (s : List Char) : Bool :=
  match matchLit true ("accept".data) s with
  | some pr =>
    match pr.2 with
    | [] => true
    | c :: _ => !(isWordChar c)
  | none => false

/-- Scan for a standalone "accept", tracking the previous character for the
left word boundary. -/
def hasStandaloneAcceptAux (prev : Option Char) : List Char → Bool
  | [] => false
  | c :: rest =>
    (boundaryBefore prev && acceptHere (c :: rest)) || hasStandaloneAcceptAux (some c) rest

/-- Line 126 of main.py: re.search of backslash-b accept backslash-b with
re.IGNORECASE over the whole text. -/
def hasStandaloneAccept (text : List Char) : Bool :=
  hasStandaloneAcceptAux none text

/-- Lines 107-129 of main.py: first matching recommendation pattern, its
captured group uppercased; otherwise ACCEPT exactly when a standalone
"accept" occurs, else REJECT. -/
def parse_recommendation (response_text : List Char) : String :=
  match searchRecommendation response_text with
  | some grp => String.mk (pyUpperList grp)
  | none =>
    if hasStandaloneAccept response_text then "ACCEPT" else "REJECT"

/-- Lines 77-131 of main.py, the pure tail of analyz_match: given the response
text obtained from the model (lines 77-84 normalise the client result to a
string), return the triple (response_text, match_percentage, recommendation). -/
def analyz_match_parse (response_text : String) : String × Nat × String :=
  (response_text, parse_percentage response_text.data, parse_recommendation response_text.data)

/-- Lines 38-131 of main.py: the chain.invoke call is the external model
collaborator, passed in as its outcome.  An exception raised by the client
propagates (there is no try/except in analyz_match); a returned text is
parsed by the pure tail above. -/
def analyz_match (llmOutcome : Except String String) : Except String (String × Nat × String) :=
  match llmOutcome with
  | Except.error e => Except.error e
  | Except.ok response_text => Except.ok (analyz_match_parse response_text)

/-- Lines 24-36 of main.py.  `parseOutcome` is the outcome of the body of work
done inside the function after tempfile.TemporaryDirectory() has created the
directory (writing the upload, PdfReader, page.extract_text concatenation).
The second component records whether the temporary directory still exists when
control leaves the function: temp_dir.cleanup() on line 35 runs only after the
extraction completed normally, so an exception propagates with the directory
still in place (true); on success the directory is removed (false). -/
def pdf_loader (parseOutcome : Except String String) : Except String String × Bool :=
  match parseOutcome with
  | Except.error e => (Except.error e, true)
  | Except.ok text => (Except.ok text, false)

/-- Lines 133-166 of main.py: the two f-string templates, keyed on is_match,
interpolating applicant_name and job_title verbatim.  Returns (subject, body). -/
def email_content (applicant_name job_title : String) (is_match : Bool) : String × String :=
  if is_match then
    ("Congratulations! Your Application for " ++ job_title,
     "Dear " ++ applicant_name ++
       ",\n\nWe are pleased to inform you that your CV has been reviewed and shows a strong match with our " ++
       job_title ++
       " position.\nWe would like to invite you to the next stage of our recruitment process.\nOur team will contact you shortly with further details.\n\nBefore that you need to complete this MCQ based test.\nMCQs.\n1. What is the capital of France?\nOption A: Paris\nOption B: London\nOption C: New York\nOption D: Tokyo\n\nBest regards,\nRecruitment Team\n")
  else
    ("Regarding your application for " ++ job_title,
     "Dear " ++ applicant_name ++
       ",\n\nThank you for your interest in the " ++
       job_title ++
       " position.\nAfter careful review of your application, we regret to inform you that we will not be moving forward with your candidacy at this time.\nWe appreciate your interest in our company and wish you the best in your job search.\n\nBest regards,\nRecruitment Team\n")

/-- Lines 168-194 of main.py.  `transportOutcome` is the outcome of the try
block (message construction and the SMTP transaction): `none` models a normal
send, `some e` an exception whose str() is `e`.  The except clause catches
every exception and converts it to a (False, message) pair, so the function
always returns a pair and never raises. -/
def send_email (transportOutcome : Option String)
    (_recipient_email _subject _body : String) : Bool × String :=
  match transportOutcome with
  | none => (true, "Email sent successfully!")
  | some e => (false, "Failed to send email: " ++ e)

/-- Line 212 of main.py: the decision expression
match_percentage >= match_threshold or recommendation == "ACCEPT".
The parsed percentage is a Python int from a digit run, hence a Nat; the
threshold is an arbitrary int. -/
def is_match (match_percentage : Nat) (match_threshold : Int) (recommendation : String) : Bool :=
  ((match_percentage : Int) ≥ match_threshold) || (recommendation == "ACCEPT")

/-- Values stored in the result dict of process_application. -/
inductive Value : Type
  | b : Bool → Value
  | n : Nat → Value
  | s : String → Value
deriving DecidableEq

/-- Lines 196-230 of main.py.  The first component is the returned dict (an
association list in insertion order), or `Except.error e` when an exception
escapes the function (process_application has no try/except, so a failure
raised by pdf_loader or by the model call inside analyz_match propagates to
the caller).  The second component is the email transmission attempted via
send_email, `none` when the flow never reaches composition and sending. -/
def process_application (pdfOutcome llmOutcome : Except String String)
    (transportOutcome : Option String)
    (applicant_name applicant_email job_title _job_description : String)
    (match_threshold : Int) :
    Except String (List (String × Value)) × Option (String × String × String) :=
  match (pdf_loader pdfOutcome).1 with
  | Except.error e => (Except.error e, none)
  | Except.ok _cv_text =>
    match analyz_match llmOutcome with
    | Except.error e => (Except.error e, none)
    | Except.ok (analysis_text, match_percentage, recommendation) =>
      if analysis_text = "" then
        (Except.ok [("success", Value.b false),
                    ("message", Value.s "Failed to analyze the CV.")], none)
      else
        (Except.ok [("success", Value.b true),
            ("applicant_name", Value.s applicant_name),
            ("job_title", Value.s job_title),
            ("match_percentage", Value.n match_percentage),
            ("recommendation", Value.s
              (if is_match match_percentage match_threshold recommendation
               then "Accept" else "Reject")),
            ("email_sent", Value.b (send_email transportOutcome applicant_email
              (email_content applicant_name job_title
                (is_match match_percentage match_threshold recommendation)).1
              (email_content applicant_name job_title
                (is_match match_percentage match_threshold recommendation)).2).1),
            ("email_message", Value.s (send_email transportOutcome applicant_email
              (email_content applicant_name job_title
                (is_match match_percentage match_threshold recommendation)).1
              (email_content applicant_name job_title
                (is_match match_percentage match_threshold recommendation)).2).2),
            ("analysis", Value.s analysis_text)],
          some (applicant_email,
            (email_content applicant_name job_title
              (is_match match_percentage match_threshold recommendation)).1,
            (email_content applicant_name job_title
              (is_match match_percentage match_threshold recommendation)).2))

/-! ## Shared lemmas about the orchestrator -/

lemma is_match_iff (mp : Nat) (t : Int) (rec : String) :
    is_match mp t rec = true ↔ ((mp : Int) ≥ t ∨ rec = "ACCEPT") := by
  simp [is_match, Bool.or_eq_true, decide_eq_true_eq, beq_iff_eq]

lemma if_accept_eq (b : Bool) :
    ((if b then "Accept" else "Reject") = "Accept" ↔ b = true) ∧
    ((if b then "Accept" else "Reject") = "Reject" ↔ b = false) := by
  cases b <;> simp

/-- Reduction of the orchestrator on the happy path: extraction returned text,
the model returned a non-empty response. -/
lemma process_application_ok (pdfText llmText : String) (sm : Option String)
    (an ae jt jd : String) (t : Int) (hne : llmText ≠ "") :
    process_application (Except.ok pdfText) (Except.ok llmText) sm an ae jt jd t =
      (Except.ok [("success", Value.b true),
          ("applicant_name", Value.s an),
          ("job_title", Value.s jt),
          ("match_percentage", Value.n (parse_percentage llmText.data)),
          ("recommendation", Value.s
            (if is_match (parse_percentage llmText.data) t (parse_recommendation llmText.data)
             then "Accept" else "Reject")),
          ("email_sent", Value.b (send_email sm ae
            (email_content an jt (is_match (parse_percentage llmText.data) t
              (parse_recommendation llmText.data))).1
            (email_content an jt (is_match (parse_percentage llmText.data) t
              (parse_recommendation llmText.data))).2).1),
          ("email_message", Value.s (send_email sm ae
            (email_content an jt (is_match (parse_percentage llmText.data) t
              (parse_recommendation llmText.data))).1
            (email_content an jt (is_match (parse_percentage llmText.data) t
              (parse_recommendation llmText.data))).2).2),
          ("analysis", Value.s llmText)],
        some (ae,
          (email_content an jt (is_match (parse_percentage llmText.data) t
            (parse_recommendation llmText.data))).1,
          (email_content an jt (is_match (parse_percentage llmText.data) t
            (parse_recommendation llmText.data))).2)) := by
  unfold process_application
  dsimp only [pdf_loader, analyz_match, analyz_match_parse]
  rw [if_neg hne]

/-- Claim C1: for every (match_percentage, match_threshold, recommendation)
triple reaching the decision, the record field "recommendation" is the display
string "Accept" exactly when match_percentage >= match_threshold or the parsed
recommendation equals ACCEPT, and "Reject" otherwise. -/
theorem C1_decision_iff (pdfText llmText : String) (sm : Option String)
    (an ae jt jd : String) (t : Int) (hne : llmText ≠ "") :
    ∃ r, (process_application (Except.ok pdfText) (Except.ok llmText) sm an ae jt jd t).1
        = Except.ok r ∧
      List.lookup "recommendation" r = some (Value.s
        (if is_match (parse_percentage llmText.data) t (parse_recommendation llmText.data)
         then "Accept" else "Reject")) ∧
      (List.lookup "recommendation" r = some (Value.s "Accept") ↔
        ((parse_percentage llmText.data : Int) ≥ t ∨ parse_recommendation llmText.data = "ACCEPT")) ∧
      (List.lookup "recommendation" r = some (Value.s "Reject") ↔
        ¬ ((parse_percentage llmText.data : Int) ≥ t ∨
           parse_recommendation llmText.data = "ACCEPT")) := by
  refine ⟨[("success", Value.b true),
      ("applicant_name", Value.s an),
      ("job_title", Value.s jt),
      ("match_percentage", Value.n (parse_percentage llmText.data)),
      ("recommendation", Value.s
        (if is_match (parse_percentage llmText.data) t (parse_recommendation llmText.data)
         then "Accept" else "Reject")),
      ("email_sent", Value.b (send_email sm ae
        (email_content an jt (is_match (parse_percentage llmText.data) t
          (parse_recommendation llmText.data))).1
        (email_content an jt (is_match (parse_percentage llmText.data) t
          (parse_recommendation llmText.data))).2).1),
      ("email_message", Value.s (send_email sm ae
        (email_content an jt (is_match (parse_percentage llmText.data) t
          (parse_recommendation llmText.data))).1
        (email_content an jt (is_match (parse_percentage llmText.data) t
          (parse_recommendation llmText.data))).2).2),
      ("analysis", Value.s llmText)], ?_, ?_, ?_, ?_⟩
  · rw [process_application_ok pdfText llmText sm an ae jt jd t hne]
  · rfl
  · show some (Value.s
        (if is_match (parse_percentage llmText.data) t (parse_recommendation llmText.data)
         then "Accept" else "Reject")) = some (Value.s "Accept") ↔ _
    simp only [Option.some.injEq, Value.s.injEq]
    rw [(if_accept_eq _).1, is_match_iff]
  · show some (Value.s
        (if is_match (parse_percentage llmText.data) t (parse_recommendation llmText.data)
         then "Accept" else "Reject")) = some (Value.s "Reject") ↔ _
    simp only [Option.some.injEq, Value.s.injEq]
    rw [(if_accept_eq _).2]
    rw [show (is_match (parse_percentage llmText.data) t (parse_recommendation llmText.data) = false)
        ↔ ¬ (is_match (parse_percentage llmText.data) t (parse_recommendation llmText.data) = true)
      from by simp]
    rw [is_match_iff]

/-- Witness for C1 at a concrete submission: percentage 65 below threshold 70
and parsed recommendation REJECT give the display string "Reject". -/
theorem C1_decision_iff_witness :
    ∃ r, (process_application (Except.ok "cv text")
        (Except.ok "Match Percentage: 65, Recommendation: REJECT") none
        "Ann" "ann@example.com" "Engineer" "job" 70).1 = Except.ok r ∧
      List.lookup "recommendation" r = some (Value.s "Reject") := by
  obtain ⟨r, h1, h2, h3, h4⟩ := C1_decision_iff "cv text"
    "Match Percentage: 65, Recommendation: REJECT" none
    "Ann" "ann@example.com" "Engineer" "job" 70 (by decide)
  refine ⟨r, h1, ?_⟩
  rw [h2]
  rw [show is_match (parse_percentage ("Match Percentage: 65, Recommendation: REJECT").data) 70
      (parse_recommendation ("Match Percentage: 65, Recommendation: REJECT").data) = false
    from by decide]
  rfl

/-- Claim C2, counterexample: on a submission whose document-extraction step
fails (PdfReader raising on a malformed upload), process_application does not
return a success=false result record — the exception escapes the function, so
no record of any kind is returned. -/
theorem C2_extraction_failure_counterexample :
    process_application (Except.error "EmptyFileError: Cannot read an empty file")
        (Except.ok "Recommendation: ACCEPT") none
        "Ann" "ann@example.com" "Engineer" "job" 70 =
      (Except.error "EmptyFileError: Cannot read an empty file", none) ∧
    ¬ ∃ r, (process_application (Except.error "EmptyFileError: Cannot read an empty file")
        (Except.ok "Recommendation: ACCEPT") none
        "Ann" "ann@example.com" "Engineer" "job" 70).1 = Except.ok r := by
  refine ⟨rfl, ?_⟩
  rintro ⟨r, h⟩
  rw [show (process_application (Except.error "EmptyFileError: Cannot read an empty file")
      (Except.ok "Recommendation: ACCEPT") none
      "Ann" "ann@example.com" "Engineer" "job" 70).1 =
    Except.error "EmptyFileError: Cannot read an empty file" from rfl] at h
  exact Except.noConfusion h

/-- Claim C2 as amended: when document extraction or the model call raises, the
exception propagates unchanged out of process_application (no result record is
produced), and no email is composed or sent; an in-band success=false result
exists only for an empty model response (see C10). -/
theorem C2_exceptions_escape (e pdfText : String) (llmOutcome : Except String String)
    (sm : Option String) (an ae jt jd : String) (t : Int) :
    process_application (Except.error e) llmOutcome sm an ae jt jd t = (Except.error e, none) ∧
    process_application (Except.ok pdfText) (Except.error e) sm an ae jt jd t =
      (Except.error e, none) := by
  exact ⟨rfl, rfl⟩

/-- Claim C3: the Notifier converts every transport failure into a
(False, message) pair with a non-empty message instead of raising, and the
orchestrator then still returns a record with success=true, email_sent=false
and that non-empty failure message. -/
theorem C3_notifier_failure_contained (e recipient subject body : String)
    (pdfText llmText : String) (an ae jt jd : String) (t : Int) (hne : llmText ≠ "") :
    send_email (some e) recipient subject body = (false, "Failed to send email: " ++ e) ∧
    ("Failed to send email: " ++ e) ≠ "" ∧
    ∃ r, (process_application (Except.ok pdfText) (Except.ok llmText) (some e)
        an ae jt jd t).1 = Except.ok r ∧
      List.lookup "success" r = some (Value.b true) ∧
      List.lookup "email_sent" r = some (Value.b false) ∧
      List.lookup "email_message" r = some (Value.s ("Failed to send email: " ++ e)) := by
  refine ⟨rfl, ?_, ?_⟩
  · intro h
    have hlen := congrArg String.length h
    rw [String.length_append] at hlen
    rw [show ("Failed to send email: ").length = 22 from rfl] at hlen
    rw [show ("" : String).length = 0 from rfl] at hlen
    omega
  · rw [process_application_ok pdfText llmText (some e) an ae jt jd t hne]
    exact ⟨_, rfl, rfl, rfl, rfl⟩

/-- Witness for C3 at a concrete submission with a failing relay. -/
theorem C3_notifier_failure_contained_witness :
    send_email (some "connection refused") "ann@example.com" "s" "b" =
      (false, "Failed to send email: connection refused") ∧
    ("Failed to send email: connection refused" ≠ "") ∧
    ∃ r, (process_application (Except.ok "cv") (Except.ok "Recommendation: ACCEPT")
        (some "connection refused") "Ann" "ann@example.com" "Engineer" "job" 70).1 =
        Except.ok r ∧
      List.lookup "success" r = some (Value.b true) ∧
      List.lookup "email_sent" r = some (Value.b false) ∧
      List.lookup "email_message" r =
        some (Value.s "Failed to send email: connection refused") := by
  exact C3_notifier_failure_contained "connection refused" "ann@example.com" "s" "b"
    "cv" "Recommendation: ACCEPT" "Ann" "ann@example.com" "Engineer" "job" 70 (by decide)

/-- Claim C6, evaluated at the failing input: the temporary directory is
removed on the success path, but when PDF parsing raises, control leaves
pdf_loader without the cleanup on line 35 ever running, so the temporary
directory is left behind (second component true). -/
theorem C6_tempdir_leak_on_failure :
    pdf_loader (Except.ok "extracted text") = (Except.ok "extracted text", false) ∧
    pdf_loader (Except.error "EmptyFileError: Cannot read an empty file") =
      (Except.error "EmptyFileError: Cannot read an empty file", true) := by
  exact ⟨rfl, rfl⟩

/-- Claim C10: a record with success=false is returned exactly when the model
response text is empty; that record is the two-key dict
[success, message] and no email is composed or sent. -/
theorem C10_only_failure_path (pdfOutcome llmOutcome : Except String String)
    (sm : Option String) (an ae jt jd : String) (t : Int) :
    (∀ r, (process_application pdfOutcome llmOutcome sm an ae jt jd t).1 = Except.ok r →
      (List.lookup "success" r = some (Value.b false) ↔ llmOutcome = Except.ok "")) ∧
    (∀ c, pdfOutcome = Except.ok c → llmOutcome = Except.ok "" →
      process_application pdfOutcome llmOutcome sm an ae jt jd t =
        (Except.ok [("success", Value.b false),
                    ("message", Value.s "Failed to analyze the CV.")], none) ∧
      ∀ r, (process_application pdfOutcome llmOutcome sm an ae jt jd t).1 = Except.ok r →
        r.map Prod.fst = ["success", "message"]) := by
  constructor
  · intro r hr
    match pdfOutcome with
    | Except.error e =>
      rw [show (process_application (Except.error e) llmOutcome sm an ae jt jd t).1 =
        Except.error e from rfl] at hr
      exact Except.noConfusion hr
    | Except.ok c =>
      match llmOutcome with
      | Except.error e =>
        rw [show (process_application (Except.ok c) (Except.error e) sm an ae jt jd t).1 =
          Except.error e from rfl] at hr
        exact Except.noConfusion hr
      | Except.ok llmText =>
        by_cases hne : llmText = ""
        · subst hne
          rw [show (process_application (Except.ok c) (Except.ok "") sm an ae jt jd t).1 =
            Except.ok [("success", Value.b false),
                       ("message", Value.s "Failed to analyze the CV.")] from rfl] at hr
          have hr2 := Except.ok.inj hr
          subst hr2
          simp
        · rw [process_application_ok c llmText sm an ae jt jd t hne] at hr
          have hr2 := Except.ok.inj hr
          subst hr2
          constructor
          · intro h
            exact absurd (Option.some.inj h) (by simp)
          · intro h
            exact absurd (Except.ok.inj h) hne
  · intro c hc hllm
    subst hc; subst hllm
    refine ⟨rfl, ?_⟩
    intro r hr
    have hr2 := Except.ok.inj
      (hr.symm.trans (show (process_application (Except.ok c) (Except.ok "") sm an ae jt jd t).1 =
        Except.ok [("success", Value.b false),
                   ("message", Value.s "Failed to analyze the CV.")] from rfl))
    subst hr2
    rfl

/-- Witness for C10 at a concrete submission with an empty model response. -/
theorem C10_only_failure_path_witness :
    process_application (Except.ok "cv") (Except.ok "") none
        "Ann" "ann@example.com" "Engineer" "job" 70 =
      (Except.ok [("success", Value.b false),
                  ("message", Value.s "Failed to analyze the CV.")], none) := by
  exact ((C10_only_failure_path (Except.ok "cv") (Except.ok "") none
    "Ann" "ann@example.com" "Engineer" "job" 70).2 "cv" rfl rfl).1

/-! ## Lemmas about the case-insensitive matchers -/

lemma pyUpper_of_ciChar (p c : Char) (hp : pyUpper (flipCase p) = pyUpper p)
    (h : ciChar p c = true) : pyUpper c = pyUpper p := by
  have h2 : c = p ∨ c = flipCase p := by
    simpa [ciChar, Bool.or_eq_true, decide_eq_true_eq] using h
  rcases h2 with h2 | h2
  · rw [h2]
  · rw [h2, hp]

lemma matchLit_ci_upper (w : List Char)
    (hw : ∀ p ∈ w, pyUpper (flipCase p) = pyUpper p) :
    ∀ s pr, matchLit true w s = some pr → pyUpperList pr.1 = pyUpperList w := by
  induction w with
  | nil =>
    intro s pr h
    simp only [matchLit, Option.some.injEq] at h
    rw [← h]
  | cons p ps ih =>
    intro s pr h
    match s with
    | [] => exact Option.noConfusion h
    | c :: cs =>
      simp only [matchLit] at h
      split at h
      · rename_i hc
        split at h
        · rename_i pr0 hm
          simp only [Option.some.injEq] at h
          rw [← h]
          show pyUpper c :: pyUpperList pr0.1 = pyUpper p :: pyUpperList ps
          have hcp : ciChar p c = true := by
            simpa [charMatches] using hc
          rw [pyUpper_of_ciChar p c (hw p (by simp)) hcp,
            ih (fun q hq => hw q (by simp [hq])) cs pr0 hm]
        · exact Option.noConfusion h
      · exact Option.noConfusion h

lemma capWords_upper (w1 w2 : List Char)
    (h1 : ∀ p ∈ w1, pyUpper (flipCase p) = pyUpper p)
    (h2 : ∀ p ∈ w2, pyUpper (flipCase p) = pyUpper p) :
    ∀ s grp, capWords w1 w2 s = some grp →
      pyUpperList grp = pyUpperList w1 ∨ pyUpperList grp = pyUpperList w2 := by
  intro s grp h
  unfold capWords at h
  split at h
  · rename_i pr hm
    simp only [Option.some.injEq] at h
    left
    rw [← h]
    exact matchLit_ci_upper w1 h1 s pr hm
  · split at h
    · rename_i pr hm
      simp only [Option.some.injEq] at h
      right
      rw [← h]
      exact matchLit_ci_upper w2 h2 s pr hm
    · exact Option.noConfusion h

lemma scanDotStar_some {α : Type} (cap : List Char → Option α) :
    ∀ s r, scanDotStar cap s = some r → ∃ s2, cap s2 = some r := by
  intro s
  induction s with
  | nil =>
    intro r h
    exact ⟨[], by simpa [scanDotStar] using h⟩
  | cons c cs ih =>
    intro r h
    simp only [scanDotStar] at h
    split at h
    · rename_i x hx
      exact ⟨c :: cs, by rw [hx, h]⟩
    · split at h
      · exact Option.noConfusion h
      · exact ih r h

lemma searchFrom_some {α : Type} (att : List Char → Option α) :
    ∀ s r, searchFrom att s = some r → ∃ s2, att s2 = some r := by
  intro s
  induction s with
  | nil =>
    intro r h
    exact ⟨[], by simpa [searchFrom] using h⟩
  | cons c cs ih =>
    intro r h
    simp only [searchFrom] at h
    split at h
    · rename_i x hx
      exact ⟨c :: cs, by rw [hx, h]⟩
    · exact ih r h

lemma tryRecAt_upper (dotSep : Bool) (w1 w2 : List Char)
    (h1 : ∀ p ∈ w1, pyUpper (flipCase p) = pyUpper p)
    (h2 : ∀ p ∈ w2, pyUpper (flipCase p) = pyUpper p) :
    ∀ s grp, tryRecAt dotSep w1 w2 s = some grp →
      pyUpperList grp = pyUpperList w1 ∨ pyUpperList grp = pyUpperList w2 := by
  intro s grp h
  unfold tryRecAt at h
  split at h
  · exact Option.noConfusion h
  · split at h
    · obtain ⟨s2, hs2⟩ := scanDotStar_some _ _ _ h
      exact capWords_upper w1 w2 h1 h2 s2 grp hs2
    · exact capWords_upper w1 w2 h1 h2 _ grp h

lemma recSearchOne_upper (dotSep : Bool) (w1 w2 : String)
    (h1 : ∀ p ∈ w1.data, pyUpper (flipCase p) = pyUpper p)
    (h2 : ∀ p ∈ w2.data, pyUpper (flipCase p) = pyUpper p)
    (text grp : List Char) (h : recSearchOne dotSep w1 w2 text = some grp) :
    pyUpperList grp = pyUpperList w1.data ∨ pyUpperList grp = pyUpperList w2.data := by
  obtain ⟨s2, hs2⟩ := searchFrom_some _ text grp h
  exact tryRecAt_upper dotSep w1.data w2.data h1 h2 s2 grp hs2

/-- Whatever text the four recommendation patterns capture, uppercasing it
yields ACCEPT or REJECT. -/
lemma searchRecommendation_upper (text grp : List Char)
    (h : searchRecommendation text = some grp) :
    String.mk (pyUpperList grp) = "ACCEPT" ∨ String.mk (pyUpperList grp) = "REJECT" := by
  have hA : ∀ p ∈ ("ACCEPT".data), pyUpper (flipCase p) = pyUpper p := by decide
  have hR : ∀ p ∈ ("REJECT".data), pyUpper (flipCase p) = pyUpper p := by decide
  have hA2 : ∀ p ∈ ("Accept".data), pyUpper (flipCase p) = pyUpper p := by decide
  have hR2 : ∀ p ∈ ("Reject".data), pyUpper (flipCase p) = pyUpper p := by decide
  have finish1 : pyUpperList grp = pyUpperList ("ACCEPT".data) ∨
      pyUpperList grp = pyUpperList ("REJECT".data) →
      String.mk (pyUpperList grp) = "ACCEPT" ∨ String.mk (pyUpperList grp) = "REJECT" := by
    rintro (hu | hu)
    · left
      rw [hu, show pyUpperList ("ACCEPT".data) = "ACCEPT".data from by decide]
    · right
      rw [hu, show pyUpperList ("REJECT".data) = "REJECT".data from by decide]
  have finish2 : pyUpperList grp = pyUpperList ("Accept".data) ∨
      pyUpperList grp = pyUpperList ("Reject".data) →
      String.mk (pyUpperList grp) = "ACCEPT" ∨ String.mk (pyUpperList grp) = "REJECT" := by
    rintro (hu | hu)
    · left
      rw [hu, show pyUpperList ("Accept".data) = "ACCEPT".data from by decide]
    · right
      rw [hu, show pyUpperList ("Reject".data) = "REJECT".data from by decide]
  unfold searchRecommendation at h
  split at h
  · rename_i m hm
    simp only [Option.some.injEq] at h
    subst h
    exact finish1 (recSearchOne_upper false "ACCEPT" "REJECT" hA hR text m hm)
  · split at h
    · rename_i m hm
      simp only [Option.some.injEq] at h
      subst h
      exact finish2 (recSearchOne_upper false "Accept" "Reject" hA2 hR2 text m hm)
    · split at h
      · rename_i m hm
        simp only [Option.some.injEq] at h
        subst h
        exact finish1 (recSearchOne_upper true "ACCEPT" "REJECT" hA hR text m hm)
      · exact finish2 (recSearchOne_upper true "Accept" "Reject" hA2 hR2 text grp h)

/-- Claim C4: the four "Recommendation" pattern variants are tried
case-insensitively in their fixed order and the first captured token is
returned uppercased (hence ACCEPT or REJECT); when none matches, the result is
ACCEPT exactly when a standalone word "accept" occurs anywhere, else REJECT.
The closed conjuncts exercise case-insensitive capture, the fallback in both
directions, and the pattern order (the first pattern, whose whitespace gap
may cross a newline, beats the later lazy-gap pattern that would capture
REJECT from the second label occurrence). -/
theorem C4_recommendation_parsing (text : String) :
    (∀ grp, searchRecommendation text.data = some grp →
      parse_recommendation text.data = String.mk (pyUpperList grp) ∧
      (String.mk (pyUpperList grp) = "ACCEPT" ∨ String.mk (pyUpperList grp) = "REJECT")) ∧
    (searchRecommendation text.data = none → hasStandaloneAccept text.data = true →
      parse_recommendation text.data = "ACCEPT") ∧
    (searchRecommendation text.data = none → hasStandaloneAccept text.data = false →
      parse_recommendation text.data = "REJECT") ∧
    parse_recommendation ("- Recommendation: aCcEpT".data) = "ACCEPT" ∧
    parse_recommendation ("We think you should accept this candidate".data) = "ACCEPT" ∧
    parse_recommendation ("No signal here".data) = "REJECT" ∧
    parse_recommendation ("Recommendation:\nACCEPT\nRecommendation is to REJECT".data)
      = "ACCEPT" := by
  refine ⟨?_, ?_, ?_, by decide, by decide, by decide, by decide⟩
  · intro grp hg
    refine ⟨?_, searchRecommendation_upper text.data grp hg⟩
    unfold parse_recommendation
    rw [hg]
  · intro hn ha
    unfold parse_recommendation
    rw [hn, ha]
    rfl
  · intro hn ha
    unfold parse_recommendation
    rw [hn, ha]
    rfl

/-- Witness for C4: a labelled upper-case recommendation is captured and
returned as ACCEPT. -/
theorem C4_recommendation_parsing_witness :
    parse_recommendation ("Recommendation: ACCEPT".data) = "ACCEPT" := by
  obtain ⟨h1, h2⟩ := (C4_recommendation_parsing "Recommendation: ACCEPT").1
    ("ACCEPT".data) (by decide)
  rw [h1]
  decide

/-- Claim C5: percentage parsing takes the primary pattern first and otherwise
the three fallback patterns in their fixed order, returning the first match;
"Match Percentage: 82" gives 82 by the primary pattern, "match score around
82%" gives 82 by the last fallback (the closed conjuncts check the first three
patterns all fail on it), an unmatched text gives 0.  The last two conjuncts
pin the order: the primary beats the lowercase fallback, and the loose-label
fallback beats the lowercase one. -/
theorem C5_percentage_parsing (text : String) :
    (∀ n, searchNum "Match Percentage" false false false text.data = some n →
      parse_percentage text.data = n) ∧
    (searchNum "Match Percentage" false false false text.data = none →
     searchNum "Match Percentage" true false true text.data = none →
     searchNum "Match Percentage" true true false text.data = none →
     searchNum "match" true true true text.data = none →
      parse_percentage text.data = 0) ∧
    parse_percentage ("Match Percentage: 82".data) = 82 ∧
    parse_percentage ("match score around 82%".data) = 82 ∧
    searchNum "Match Percentage" false false false ("match score around 82%".data) = none ∧
    searchNum "Match Percentage" true false true ("match score around 82%".data) = none ∧
    searchNum "Match Percentage" true true false ("match score around 82%".data) = none ∧
    parse_percentage ("nothing here".data) = 0 ∧
    parse_percentage ("match 50% overall. Match Percentage: 82".data) = 82 ∧
    parse_percentage ("match percentage roughly 44, match 30%".data) = 44 := by
  refine ⟨?_, ?_, by decide, by decide, by decide, by decide, by decide, by decide,
    by decide, by decide⟩
  · intro n hn
    unfold parse_percentage
    rw [hn]
  · intro h1 h2 h3 h4
    unfold parse_percentage
    rw [h1, h2, h3, h4]

/-- Witness for C5: the primary pattern match determines the result. -/
theorem C5_percentage_parsing_witness :
    parse_percentage ("Match Percentage: 9".data) = 9 := by
  exact (C5_percentage_parsing "Match Percentage: 9").1 9 (by decide)

/-- Claim C7: parsing is total — for every response text it returns the triple
(response text, non-negative percentage, recommendation in {ACCEPT, REJECT});
when no percentage pattern matches the percentage defaults to 0, and when no
recommendation pattern matches the recommendation defaults to REJECT unless a
standalone "accept" occurs, in which case ACCEPT. -/
theorem C7_evaluator_total (text : String) :
    (analyz_match_parse text).1 = text ∧
    (0 : Int) ≤ ((analyz_match_parse text).2.1 : Int) ∧
    ((analyz_match_parse text).2.2 = "ACCEPT" ∨ (analyz_match_parse text).2.2 = "REJECT") ∧
    (searchNum "Match Percentage" false false false text.data = none →
     searchNum "Match Percentage" true false true text.data = none →
     searchNum "Match Percentage" true true false text.data = none →
     searchNum "match" true true true text.data = none →
      (analyz_match_parse text).2.1 = 0) ∧
    (searchRecommendation text.data = none → hasStandaloneAccept text.data = false →
      (analyz_match_parse text).2.2 = "REJECT") ∧
    (searchRecommendation text.data = none → hasStandaloneAccept text.data = true →
      (analyz_match_parse text).2.2 = "ACCEPT") := by
  refine ⟨rfl, Int.natCast_nonneg _, ?_, ?_, ?_, ?_⟩
  · show parse_recommendation text.data = "ACCEPT" ∨ parse_recommendation text.data = "REJECT"
    cases hsr : searchRecommendation text.data with
    | some grp =>
      have h := searchRecommendation_upper text.data grp hsr
      unfold parse_recommendation
      rw [hsr]
      exact h
    | none =>
      cases ha : hasStandaloneAccept text.data with
      | true =>
        left
        unfold parse_recommendation
        rw [hsr, ha]
        rfl
      | false =>
        right
        unfold parse_recommendation
        rw [hsr, ha]
        rfl
  · intro h1 h2 h3 h4
    show parse_percentage text.data = 0
    unfold parse_percentage
    rw [h1, h2, h3, h4]
  · intro hn ha
    show parse_recommendation text.data = "REJECT"
    unfold parse_recommendation
    rw [hn, ha]
    rfl
  · intro hn ha
    show parse_recommendation text.data = "ACCEPT"
    unfold parse_recommendation
    rw [hn, ha]
    rfl

/-- Witness for C7 on a signal-free text: both conservative defaults. -/
theorem C7_evaluator_total_witness :
    (analyz_match_parse "x").2.1 = 0 ∧ (analyz_match_parse "x").2.2 = "REJECT" := by
  have h := C7_evaluator_total "x"
  exact ⟨h.2.2.2.1 (by decide) (by decide) (by decide) (by decide),
    h.2.2.2.2.1 (by decide) (by decide)⟩

/-- Claim C8: the Notification Composer is a pure deterministic function of
exactly (decision, applicant_name, job_title): identical inputs give
byte-identical output, each branch is one fixed template interpolating
applicant_name and job_title verbatim, and at the orchestrator level two
submissions with the same name, title and decision produce the same composed
subject and body whatever their recipient, threshold, CV text or transport. -/
theorem C8_composer_pure :
    (∀ an jt m, email_content an jt m = email_content an jt m) ∧
    (∃ s1 b1 b2 b3 : String, ∀ an jt,
      email_content an jt true = (s1 ++ jt, b1 ++ an ++ b2 ++ jt ++ b3)) ∧
    (∃ s1 b1 b2 b3 : String, ∀ an jt,
      email_content an jt false = (s1 ++ jt, b1 ++ an ++ b2 ++ jt ++ b3)) ∧
    (∀ pdf1 pdf2 text1 text2 : String, ∀ sm1 sm2 : Option String,
      ∀ ae1 ae2 jd1 jd2 an jt : String, ∀ t1 t2 : Int,
      text1 ≠ "" → text2 ≠ "" →
      is_match (parse_percentage text1.data) t1 (parse_recommendation text1.data) =
        is_match (parse_percentage text2.data) t2 (parse_recommendation text2.data) →
      ∃ sb : String × String,
        (process_application (Except.ok pdf1) (Except.ok text1) sm1 an ae1 jt jd1 t1).2 =
          some (ae1, sb.1, sb.2) ∧
        (process_application (Except.ok pdf2) (Except.ok text2) sm2 an ae2 jt jd2 t2).2 =
          some (ae2, sb.1, sb.2)) := by
  refine ⟨fun an jt m => rfl, ?_, ?_, ?_⟩
  · exact ⟨"Congratulations! Your Application for ",
      "Dear ",
      ",\n\nWe are pleased to inform you that your CV has been reviewed and shows a strong match with our ",
      " position.\nWe would like to invite you to the next stage of our recruitment process.\nOur team will contact you shortly with further details.\n\nBefore that you need to complete this MCQ based test.\nMCQs.\n1. What is the capital of France?\nOption A: Paris\nOption B: London\nOption C: New York\nOption D: Tokyo\n\nBest regards,\nRecruitment Team\n",
      fun an jt => rfl⟩
  · exact ⟨"Regarding your application for ",
      "Dear ",
      ",\n\nThank you for your interest in the ",
      " position.\nAfter careful review of your application, we regret to inform you that we will not be moving forward with your candidacy at this time.\nWe appreciate your interest in our company and wish you the best in your job search.\n\nBest regards,\nRecruitment Team\n",
      fun an jt => rfl⟩
  · intro pdf1 pdf2 text1 text2 sm1 sm2 ae1 ae2 jd1 jd2 an jt t1 t2 h1 h2 him
    rw [process_application_ok pdf1 text1 sm1 an ae1 jt jd1 t1 h1,
        process_application_ok pdf2 text2 sm2 an ae2 jt jd2 t2 h2, him]
    exact ⟨((email_content an jt (is_match (parse_percentage text2.data) t2
               (parse_recommendation text2.data))).1,
            (email_content an jt (is_match (parse_percentage text2.data) t2
               (parse_recommendation text2.data))).2),
           rfl, rfl⟩

/-- Witness for C8: two submissions differing in CV text, recipient, job
description, threshold and transport outcome, but with the same name, title
and decision, get the same composed subject and body. -/
theorem C8_composer_pure_witness :
    ∃ sb : String × String,
      (process_application (Except.ok "cv one") (Except.ok "Recommendation: ACCEPT") none
        "Ann" "a@x" "Dev" "jd one" 70).2 = some ("a@x", sb.1, sb.2) ∧
      (process_application (Except.ok "cv two") (Except.ok "We accept you") (some "boom")
        "Ann" "b@x" "Dev" "jd two" 90).2 = some ("b@x", sb.1, sb.2) := by
  exact (C8_composer_pure).2.2.2 "cv one" "cv two" "Recommendation: ACCEPT" "We accept you"
    none (some "boom") "a@x" "b@x" "jd one" "jd two" "Ann" "Dev" 70 90
    (by decide) (by decide) (by decide)

/-- Claim C9: the parsed percentage is never clamped to 100 — the text
"Match Percentage: 250" parses to 250 unchanged — and the decision compares it
directly with the threshold, so any parsed value above 100 is accepted for
every threshold in [0, 100], whatever the parsed recommendation. -/
theorem C9_no_upper_clamp (text : String) (t : Int) (rec : String)
    (pdfText : String) (sm : Option String) (an ae jt jd : String)
    (hgt : 100 < parse_percentage text.data) (h0 : 0 ≤ t) (h100 : t ≤ 100) :
    is_match (parse_percentage text.data) t rec = true ∧
    parse_percentage ("Match Percentage: 250".data) = 250 ∧
    ∃ r, (process_application (Except.ok pdfText) (Except.ok "Match Percentage: 250") sm
        an ae jt jd t).1 = Except.ok r ∧
      List.lookup "match_percentage" r = some (Value.n 250) ∧
      List.lookup "recommendation" r = some (Value.s "Accept") := by
  refine ⟨(is_match_iff _ _ _).mpr (Or.inl (by omega)), by decide, ?_⟩
  rw [process_application_ok pdfText "Match Percentage: 250" sm an ae jt jd t (by decide)]
  refine ⟨_, rfl, ?_, ?_⟩
  · show some (Value.n (parse_percentage (("Match Percentage: 250" : String).data)))
      = some (Value.n 250)
    rw [show parse_percentage (("Match Percentage: 250" : String).data) = 250 from by decide]
  · show some (Value.s (if is_match (parse_percentage (("Match Percentage: 250" : String).data)) t
        (parse_recommendation (("Match Percentage: 250" : String).data))
      then "Accept" else "Reject")) = some (Value.s "Accept")
    rw [show parse_percentage (("Match Percentage: 250" : String).data) = 250 from by decide,
      show parse_recommendation (("Match Percentage: 250" : String).data) = "REJECT"
        from by decide,
      show is_match 250 t "REJECT" = true from (is_match_iff _ _ _).mpr (Or.inl (by omega))]
    rfl

/-- Witness for C9 at threshold 70. -/
theorem C9_no_upper_clamp_witness :
    is_match (parse_percentage ("Match Percentage: 250".data)) 70 "REJECT" = true ∧
    parse_percentage ("Match Percentage: 250".data) = 250 := by
  have h := C9_no_upper_clamp "Match Percentage: 250" 70 "REJECT" "cv" none "A" "B" "C" "D"
    (by decide) (by decide) (by decide)
  exact ⟨h.1, h.2.1⟩

end CVAnalyzer
